import Mathlib

/-!
Shallow embedding of src/stock_forecasting.py.

Timestamps are modelled as natural numbers (days since the 1970-01-01 epoch,
which was a Thursday), prices as rationals.  A raw provider cell is modelled
by what the pandas coercions would make of it.  The yfinance download and the
numeric output of the Prophet model are external effects and are therefore
parameters of the embedding; every structural step the Python file performs on
their results (column flattening, column resolution, coercion, row dropping,
future-dataframe construction, trace assembly) is embedded concretely.
-/

namespace StockForecast

/-- A raw provider cell: the value pandas coercions would extract from it.
Field asDate is the result of pd.to_datetime(cell, errors="coerce")
(none = NaT) and asNum the result of pd.to_numeric(cell, errors="coerce")
(none = NaN). -/
structure RawCell where
  asDate : Option Nat
  asNum  : Option ℚ
deriving DecidableEq

/-- A column label of the downloaded frame: flat, or a multi-level tuple as
produced by yfinance group_by / multi-ticker downloads (lines 27-31). -/
inductive ColLabel where
  | flat (name : String)
  | tup (parts : List String)
deriving DecidableEq

/-- The raw frame returned by yf.download(ticker, period="5y", interval="1d")
(line 22): an index label, column labels, and one (index cell, data cells)
pair per row.  df.empty holds exactly when there are no rows. -/
structure RawFrame where
  indexName : String
  cols : List ColLabel
  rows : List (RawCell × List RawCell)
deriving DecidableEq

/-- Outcome of the yf.download call inside get_stock_data: the network call
either raises (network error / provider rejection) or delivers a frame. -/
inductive DownloadResult where
  | failed
  | ok (rf : RawFrame)

/-- Python exceptions that the embedded code can raise internally. -/
inductive PyError where
  | keyError
  | valueError
  | fitError
deriving DecidableEq

/-- Lines 27-31: flatten a MultiIndex label by joining its parts with an
underscore and stripping whitespace; flat labels are kept as they are. -/
def flattenLabel : ColLabel → String
  | .flat s => s
  | .tup parts => (String.intercalate "_" parts).trim

/-- Working frame after column flattening and reset_index: flat column names
and plain rows. -/
structure WFrame where
  cols : List String
  rows : List (List RawCell)
deriving DecidableEq

/-- Line 33: df.reset_index(inplace=True) moves the index in as the first
column (its label flattened like the others by lines 27-31). -/
def reset_index (rf : RawFrame) : WFrame :=
  { cols := rf.indexName :: rf.cols.map flattenLabel
    rows := rf.rows.map (fun pr => pr.1 :: pr.2) }

/-- pandas df.rename(columns=\x7bold: new\x7d): every column label equal to
old is renamed. -/
def renameCol (w : WFrame) (old new : String) : WFrame :=
  { w with cols := w.cols.map (fun c => if c = old then new else c) }

/-- pandas column selection df[name]: the cells of the first column whose
label is name, or a KeyError (here: none) when no column matches. -/
def getColCells (w : WFrame) (name : String) : Option (List RawCell) :=
  if name ∈ w.cols then
    some (w.rows.map (fun r => r.getD (w.cols.indexOf name) ⟨none, none⟩))
  else none

/-- Python substring test (needle in hay) on strings. -/
def strHasSub (hay needle : String) : Bool :=
  (List.range (hay.data.length + 1)).any fun i =>
    ((hay.data.drop i).take needle.data.length) == needle.data

/-- Lines 36-40: ensure a "Date" column exists — keep an existing one, else
rename a "Datetime" column, else assign the post-reset_index RangeIndex
(0, 1, ...) as a new "Date" column appended on the right. -/
def resolveDate (w : WFrame) : WFrame :=
  if "Date" ∈ w.cols then w
  else if "Datetime" ∈ w.cols then renameCol w "Datetime" "Date"
  else
    { cols := w.cols ++ ["Date"]
      rows := w.rows.enum.map (fun p => p.2 ++ [⟨some p.1, some (p.1 : ℚ)⟩]) }

/-- Lines 44-48: if no "Close" column exists, rename the first column whose
name contains "Close" ; when no column matches, the frame is unchanged and
the subsequent df["Close"] access raises. -/
def resolveClose (w : WFrame) : WFrame :=
  if "Close" ∈ w.cols then w
  else
    match w.cols.filter (fun c => strHasSub c "Close") with
    | [] => w
    | c :: _ => renameCol w c "Close"

/-- Line 43: pd.to_datetime(df["Date"], errors="coerce") applied to the frame
after date resolution (unparseable cells become NaT = none). -/
def dateCells (w : WFrame) : List (Option Nat) :=
  match getColCells w "Date" with
  | some cells => cells.map (·.asDate)
  | none => []

/-- Line 50: pd.to_numeric(df["Close"], errors="coerce"); a missing "Close"
column raises a KeyError. -/
def closeCells (w : WFrame) : Except PyError (List (Option ℚ)) :=
  match getColCells w "Close" with
  | some cells => .ok (cells.map (·.asNum))
  | none => .error .keyError

/-- The frame after both resolution steps (lines 36-48). -/
def resolvedFrame (rf : RawFrame) : WFrame :=
  resolveClose (resolveDate (reset_index rf))

/-- The coerced "Date" column (line 43, taken before the Close renaming of
lines 44-48, which never touches a column named "Date"). -/
def rawDates (rf : RawFrame) : List (Option Nat) :=
  dateCells (resolveDate (reset_index rf))

/-- The coerced "Close" column of the resolved frame (line 50). -/
def rawCloses (rf : RawFrame) : Except PyError (List (Option ℚ)) :=
  closeCells (resolvedFrame rf)

/-- The cleaned frame returned by get_stock_data: its column labels and, for
each remaining row, the coerced (Date, Close) cells.  The other columns of
the Python frame are never read downstream and are not carried. -/
structure Frame where
  cols : List String
  rows : List (Option Nat × Option ℚ)
deriving DecidableEq

/-- Body of the try block of get_stock_data (lines 22-53): emptiness check,
flattening, reset_index, date and close resolution, the two coercions and
dropna(subset=["Date", "Close"]) (line 51). -/
def get_stock_data_body (rf : RawFrame) : Except PyError (Option Frame) :=
  if rf.rows.isEmpty then .ok none
  else
    match rawCloses rf with
    | .error e => .error e
    | .ok closes =>
        .ok (some { cols := (resolvedFrame rf).cols
                    rows := ((rawDates rf).zip closes).filter
                              (fun p => p.1.isSome && p.2.isSome) })

/-- get_stock_data (lines 19-57): a failed download or any exception inside
the body is caught and turned into None (lines 55-57). -/
def get_stock_data (dl : DownloadResult) : Option Frame :=
  match dl with
  | .failed => none
  | .ok rf =>
    match get_stock_data_body rf with
    | .error _ => none
    | .ok r => r

/-- One row of the frame returned by Prophet predict, named after the columns
the dashboard reads (ds, yhat, yhat_upper; yhat_lower is produced too). -/
structure ForecastRow where
  ds : Nat
  yhat : ℚ
  yhat_lower : ℚ
  yhat_upper : ℚ
deriving DecidableEq

/-- The forecast frame (line 75-76): a row per future timestamp. -/
abbrev Forecast := List ForecastRow

/-- The numeric predictions of a fitted Prophet model, abstract: given the
training series the model was fitted on and a timestamp, the
(yhat, yhat_lower, yhat_upper) values predict would produce there.  Only the
structural contract of predict (one output row per future row, in order,
with ds preserved) is modelled concretely; the regression numbers are opaque. -/
abbrev Oracle := List (Nat × ℚ) → Nat → ℚ × ℚ × ℚ

/-- Lines 64-68: select the Date/Close columns as ds/y, drop rows with a
missing value, re-coerce (a no-op on already coerced cells) and drop again;
the net effect keeps exactly the rows where both cells parsed. -/
def cleanSeries (df : Frame) : List (Nat × ℚ) :=
  df.rows.filterMap (fun p =>
    match p with
    | (some d, some y) => some (d, y)
    | _ => none)

/-- Prophet history_dates: the distinct ds values of the training frame,
sorted ascending. -/
def historyDates (s : List (Nat × ℚ)) : List Nat :=
  ((s.map Prod.fst).dedup).insertionSort (· ≤ ·)

/-- Prophet last training date, history_dates.max(). -/
def lastDate (s : List (Nat × ℚ)) : Nat :=
  (s.map Prod.fst).foldl max 0

/-- pandas date_range(start, periods=n, freq="D"): n consecutive calendar
days from start; a negative n raises a ValueError. -/
def date_range (start : Nat) (n : Int) : Except PyError (List Nat) :=
  if n < 0 then .error .valueError
  else .ok ((List.range n.toNat).map (fun i => start + i))

/-- Python list slicing l[:k], including the negative-stop convention. -/
def pySlice {α : Type} (l : List α) (k : Int) : List α :=
  if 0 ≤ k then l.take k.toNat else l.take (l.length - (-k).toNat)

/-- Prophet make_future_dataframe(periods) with the default freq="D" and
include_history=True (line 74): the sorted distinct history dates followed by
the dates of date_range(last_date, periods+1) that lie strictly beyond the
last training date, truncated to periods entries. -/
def make_future_dataframe (s : List (Nat × ℚ)) (periods : Int) :
    Except PyError (List Nat) :=
  match date_range (lastDate s) (periods + 1) with
  | .error e => .error e
  | .ok dates =>
      .ok (historyDates s ++ pySlice (dates.filter (fun d => lastDate s < d)) periods)

/-- Prophet predict (line 75): one output row per future row, in order, ds
preserved; the numeric columns come from the fitted model. -/
def predict (oracle : Oracle) (s : List (Nat × ℚ)) (future : List Nat) : Forecast :=
  future.map (fun d =>
    { ds := d
      yhat := (oracle s d).1
      yhat_lower := (oracle s d).2.1
      yhat_upper := (oracle s d).2.2 })

/-- Body of the try block of forecast_stock (lines 64-76).  Prophet fit
raises when fewer than two clean rows remain ("Dataframe has less than 2
non-NaN rows"); make_future_dataframe raises on periods below -1 via
pd.date_range. -/
def forecast_stock_body (oracle : Oracle) (df : Frame) (periods : Int) :
    Except PyError Forecast :=
  if (cleanSeries df).length < 2 then .error .fitError
  else
    match make_future_dataframe (cleanSeries df) periods with
    | .error e => .error e
    | .ok future => .ok (predict oracle (cleanSeries df) future)

/-- forecast_stock (lines 62-80): any exception inside the body is caught and
turned into None (lines 78-80). -/
def forecast_stock (oracle : Oracle) (df : Frame) (periods : Int) : Option Forecast :=
  match forecast_stock_body oracle df periods with
  | .error _ => none
  | .ok f => some f

/-- The dropdown options of the layout (lines 91-102), as (label, value). -/
def stock_options : List (String × String) :=
  [("Apple (AAPL)", "AAPL"),
   ("Tesla (TSLA)", "TSLA"),
   ("Microsoft (MSFT)", "MSFT"),
   ("Google (GOOG)", "GOOG"),
   ("Reliance (RELIANCE.NS)", "RELIANCE.NS"),
   ("TCS (TCS.NS)", "TCS.NS"),
   ("Gold ETF India (GOLDBEES.NS)", "GOLDBEES.NS"),
   ("Gold ETF India (NIPPGOLD.NS)", "NIPPGOLD.NS"),
   ("Gold ETF US (GLD)", "GLD"),
   ("Toyota (TM)", "TM")]

/-- Line 213: the label of the selected ticker, falling back to the ticker. -/
def optionLabel (ticker : String) : String :=
  match stock_options.find? (fun o => o.2 = ticker) with
  | some o => o.1
  | none => ticker

/-- The two tab values the layout's dcc.Tabs can emit (lines 178-184). -/
def layout_tab_values : List String := ["tab1", "tab2"]

/-- One plotly trace as assembled in update_tab: its name, x and y data, and
whether it carries fill="tonexty" (a band shaded down to the previous
trace). -/
structure Trace where
  name : String
  xs : List (Option Nat)
  ys : List (Option ℚ)
  fillToPrev : Bool
deriving DecidableEq

/-- A plotly figure as assembled in update_tab: title and traces. -/
structure ChartSpec where
  title : String
  traces : List Trace
deriving DecidableEq

/-- What one callback invocation returns: an error banner (html.Div with a
message) or a graph (dcc.Graph with a figure). -/
inductive TabOutput where
  | message (text : String)
  | graph (fig : ChartSpec)
deriving DecidableEq

/-- The no-data banner text (line 205). -/
def noDataMsg : String := "❌ No data found for selected asset or data fetch failed."

/-- The forecast-failure banner text (line 210). -/
def forecastFailedMsg : String := "❌ Forecasting failed. Check data format."

/-- update_tab (lines 202-250), instrumented with which pipeline stages ran:
the result is (returned value, (get_stock_data was called, forecast_stock
was called)).  The download outcome per ticker and the Prophet numbers are
the external parameters.  The returned value is none exactly on the implicit
fall-through when tab is neither of the layout's two tab values. -/
def update_tab_instr (download : String → DownloadResult) (oracle : Oracle)
    (ticker : String) (forecast_days : Int) (tab : String) :
    Option TabOutput × Bool × Bool :=
  match get_stock_data (download ticker) with
  | none => (some (.message noDataMsg), true, false)
  | some df =>
    if df.rows.isEmpty then (some (.message noDataMsg), true, false)
    else
      match forecast_stock oracle df forecast_days with
      | none => (some (.message forecastFailedMsg), true, true)
      | some fc =>
        if fc.isEmpty then (some (.message forecastFailedMsg), true, true)
        else
          if tab = "tab1" then
            (some (.graph
              { title := optionLabel ticker ++ " - Historical Price"
                traces := [{ name := "Close Price"
                             xs := df.rows.map (·.1)
                             ys := df.rows.map (·.2)
                             fillToPrev := false }] }), true, true)
          else if tab = "tab2" then
            (some (.graph
              { title := optionLabel ticker ++ " - " ++ toString forecast_days
                           ++ "-Day Forecast (Prophet)"
                traces := [{ name := "Actual"
                             xs := df.rows.map (·.1)
                             ys := df.rows.map (·.2)
                             fillToPrev := false },
                           { name := "Forecast"
                             xs := fc.map (fun r => some r.ds)
                             ys := fc.map (fun r => some r.yhat)
                             fillToPrev := false },
                           { name := "Confidence Interval"
                             xs := fc.map (fun r => some r.ds)
                             ys := fc.map (fun r => some r.yhat_upper)
                             fillToPrev := true }] }), true, true)
          else (none, true, true)

/-- update_tab as the dashboard sees it: the returned value alone. -/
def update_tab (download : String → DownloadResult) (oracle : Oracle)
    (ticker : String) (forecast_days : Int) (tab : String) : Option TabOutput :=
  (update_tab_instr download oracle ticker forecast_days tab).1

/-! Concrete instances used to evaluate the embedding at specific inputs. -/

/-- A concrete all-zero prediction oracle. -/
def oracle0 : Oracle := fun _ _ => (0, 0, 0)

/-- A two-row cleaned frame: epoch days 0 and 1 (Thursday 1970-01-01 and
Friday 1970-01-02), closing prices 1 and 2. -/
def dfTwo : Frame :=
  { cols := ["Date", "Close"], rows := [(some 0, some 1), (some 1, some 2)] }

/-- The forecast the embedded forecast_stock yields from dfTwo with horizon 1
under the all-zero oracle: the two history days followed by epoch day 2
(Saturday 1970-01-03). -/
def fcTwo : Forecast := [⟨0, 0, 0, 0⟩, ⟨1, 0, 0, 0⟩, ⟨2, 0, 0, 0⟩]

/-- A raw frame whose two parseable rows arrive date-sorted (days 0, 1). -/
def rfSorted : RawFrame :=
  { indexName := "Date", cols := [.flat "Close"],
    rows := [(⟨some 0, none⟩, [⟨none, some 1⟩]), (⟨some 1, none⟩, [⟨none, some 2⟩])] }

/-- A download outcome delivering rfSorted for every ticker. -/
def downloadSorted : String → DownloadResult := fun _ => .ok rfSorted

/-- A raw frame whose parseable rows arrive in descending date order
(day 5 before day 3), as the code never sorts. -/
def rfDesc : RawFrame :=
  { indexName := "Date", cols := [.flat "Close"],
    rows := [(⟨some 5, none⟩, [⟨none, some 10⟩]), (⟨some 3, none⟩, [⟨none, some 11⟩])] }

/-- A nonempty raw frame whose only date cell fails to parse, so cleaning
drops every row. -/
def rfDropAll : RawFrame :=
  { indexName := "Date", cols := [.flat "Close"],
    rows := [(⟨none, none⟩, [⟨none, some 1⟩])] }

/-- Day d (in days since the epoch Thursday 1970-01-01) is a Saturday or a
Sunday, hence not a trading day. -/
def isWeekend (d : Nat) : Bool := decide (d % 7 = 2) || decide (d % 7 = 3)

/-! Helper lemmas about the embedded operations. -/

theorem getColCells_some_mem {w : WFrame} {n : String} {cs : List RawCell}
    (h : getColCells w n = some cs) : n ∈ w.cols := by
  unfold getColCells at h
  split at h
  · assumption
  · simp at h

theorem closeCells_ok_mem {w : WFrame} {cs : List (Option ℚ)}
    (h : closeCells w = .ok cs) : "Close" ∈ w.cols := by
  unfold closeCells at h
  cases hg : getColCells w "Close" with
  | none => rw [hg] at h; cases h
  | some cells => exact getColCells_some_mem hg

theorem mem_date_resolveDate (w : WFrame) : "Date" ∈ (resolveDate w).cols := by
  unfold resolveDate
  split
  · assumption
  · split
    · rename_i h2
      exact List.mem_map.mpr ⟨"Datetime", h2, by simp⟩
    · simp

theorem mem_date_resolveClose {w : WFrame} (h : "Date" ∈ w.cols) :
    "Date" ∈ (resolveClose w).cols := by
  unfold resolveClose
  split
  · exact h
  · split
    · exact h
    · rename_i c rest hfilter
      have hmem : c ∈ w.cols.filter (fun c => strHasSub c "Close") := by
        rw [hfilter]; exact List.mem_cons_self _ _
      have hc := (List.mem_filter.mp hmem).2
      refine List.mem_map.mpr ⟨"Date", h, ?_⟩
      have hne : "Date" ≠ c := by
        intro he
        rw [← he] at hc
        exact absurd hc (by decide)
      simp [hne]

theorem rows_resolveDate_nil {w : WFrame} (h : w.rows = []) :
    (resolveDate w).rows = [] := by
  unfold resolveDate
  split
  · exact h
  · split
    · simpa [renameCol] using h
    · simp [h]

theorem rawDates_nil {rf : RawFrame} (h : rf.rows = []) : rawDates rf = [] := by
  have h1 : (reset_index rf).rows = [] := by simp [reset_index, h]
  have h2 : (resolveDate (reset_index rf)).rows = [] := rows_resolveDate_nil h1
  unfold rawDates dateCells
  cases hg : getColCells (resolveDate (reset_index rf)) "Date" with
  | none => rfl
  | some cells =>
      have hc : cells = [] := by
        unfold getColCells at hg
        split at hg
        · rw [h2] at hg
          simpa using hg.symm
        · simp at hg
      simp [hc]

theorem foldl_max_le_init (l : List Nat) (a : Nat) : a ≤ l.foldl max a := by
  induction l generalizing a with
  | nil => simp
  | cons b t ih => exact le_trans (le_max_left a b) (ih (max a b))

theorem mem_le_foldl_max {l : List Nat} {x : Nat} (hx : x ∈ l) (a : Nat) :
    x ≤ l.foldl max a := by
  induction l generalizing a with
  | nil => cases hx
  | cons b t ih =>
      rcases List.mem_cons.mp hx with rfl | hx2
      · exact le_trans (le_max_right a x) (foldl_max_le_init t (max a x))
      · exact ih hx2 (max a b)

theorem historyDates_eq {s : List (Nat × ℚ)}
    (h : (s.map Prod.fst).Pairwise (· < ·)) : historyDates s = s.map Prod.fst := by
  unfold historyDates
  rw [List.dedup_eq_self.mpr (h.imp ne_of_lt)]
  exact List.Sorted.insertionSort_eq (h.imp le_of_lt)

theorem filter_range_shift (L n : Nat) :
    ((List.range (n + 1)).map (fun i => L + i)).filter (fun d => L < d) =
      (List.range n).map (fun i => L + (i + 1)) := by
  induction n with
  | zero => simp
  | succ n ih =>
      have hstep : L < L + (n + 1) := by omega
      conv_lhs => rw [List.range_succ]
      rw [List.map_append, List.filter_append, ih]
      conv_rhs => rw [List.range_succ]
      rw [List.map_append]
      simp [hstep]

theorem make_future_pos (s : List (Nat × ℚ)) (h : Int) (hh : 1 ≤ h) :
    make_future_dataframe s h =
      .ok (historyDates s ++
        (List.range h.toNat).map (fun i => lastDate s + (i + 1))) := by
  unfold make_future_dataframe
  cases hdr : date_range (lastDate s) (h + 1) with
  | error e =>
      unfold date_range at hdr
      rw [if_neg (by omega : ¬ h + 1 < 0)] at hdr
      cases hdr
  | ok dates =>
      have hdates : dates = (List.range (h.toNat + 1)).map (fun i => lastDate s + i) := by
        unfold date_range at hdr
        rw [if_neg (by omega : ¬ h + 1 < 0),
          (by omega : (h + 1).toNat = h.toNat + 1)] at hdr
        exact (Except.ok.inj hdr).symm
      rw [hdates]
      show Except.ok (historyDates s ++
          pySlice (List.filter (fun d => lastDate s < d)
            ((List.range (h.toNat + 1)).map (fun i => lastDate s + i))) h) = _
      rw [filter_range_shift]
      unfold pySlice
      rw [if_pos (by omega : (0 : Int) ≤ h)]
      rw [List.take_of_length_le (by simp)]

theorem predict_ds (oracle : Oracle) (s : List (Nat × ℚ)) (future : List Nat) :
    (predict oracle s future).map (·.ds) = future := by
  induction future with
  | nil => rfl
  | cons d t ih => simpa [predict] using ih

/-! Claim theorems. -/

/-- C1: whenever the fetch yields no frame, or a frame whose rows were all
dropped, update_tab returns the no-data banner — never the forecast-failure
banner — and forecast_stock is not invoked (its call flag stays false). -/
theorem C1_no_data_short_circuit (download : String → DownloadResult)
    (oracle : Oracle) (ticker : String) (days : Int) (tab : String)
    (h : get_stock_data (download ticker) = none ∨
         ∃ df, get_stock_data (download ticker) = some df ∧ df.rows = []) :
    update_tab_instr download oracle ticker days tab
      = (some (.message noDataMsg), true, false) := by
  unfold update_tab_instr
  rcases h with h | ⟨df, hdf, hrows⟩
  · rw [h]
  · rw [hdf]
    simp [hrows]

/-- C1 witness: concrete trigger whose download fails. -/
theorem C1_no_data_short_circuit_witness :
    update_tab_instr (fun _ => .failed) oracle0 "AAPL" 30 "tab1"
      = (some (.message noDataMsg), true, false) :=
  C1_no_data_short_circuit (fun _ => .failed) oracle0 "AAPL" 30 "tab1" (Or.inl rfl)

/-- C2: forecast_stock does not reject the non-positive horizon 0: on the
two-row frame dfTwo, whatever the fitted model predicts, it returns a
non-None history-only forecast of length 2 with the history timestamps, not
the FitError value None the spec requires for every h at most 0. -/
theorem C2_zero_horizon_not_rejected (oracle : Oracle) :
    ∃ fc, forecast_stock oracle dfTwo 0 = some fc ∧
      fc.map (·.ds) = [0, 1] ∧ fc.length = 2 :=
  ⟨_, rfl, rfl, rfl⟩

/-- C6: a failed download, an empty download and any exception raised inside
the body of get_stock_data (such as the KeyError when no close-like column
exists) are all converted to the None result; nothing propagates. -/
theorem C6_failures_become_none (dl : DownloadResult)
    (h : dl = .failed ∨ ∃ rf, dl = .ok rf ∧
          (rf.rows = [] ∨ ∃ e, get_stock_data_body rf = .error e)) :
    get_stock_data dl = none := by
  rcases h with rfl | ⟨rf, rfl, hrf⟩
  · rfl
  · rcases hrf with hrows | ⟨e, herr⟩
    · simp [get_stock_data, get_stock_data_body, hrows]
    · show (match get_stock_data_body rf with
        | Except.error _ => (none : Option Frame)
        | Except.ok r => r) = none
      rw [herr]

/-- C6 witness: a failed download at a concrete input. -/
theorem C6_failures_become_none_witness : get_stock_data .failed = none :=
  C6_failures_become_none .failed (Or.inl rfl)

/-- C10: every frame get_stock_data returns carries a Date and a Close
column and no row of it is missing either cell; an empty frame is still a
possible non-None result (all rows dropped during cleaning). -/
theorem C10_schema_invariant (dl : DownloadResult) (f : Frame)
    (h : get_stock_data dl = some f) :
    "Date" ∈ f.cols ∧ "Close" ∈ f.cols ∧
    (∀ p ∈ f.rows, p.1.isSome = true ∧ p.2.isSome = true) ∧
    (∃ dl0 f0, get_stock_data dl0 = some f0 ∧ f0.rows = []) := by
  cases dl with
  | failed => cases h
  | ok rf =>
    have h2 : (match get_stock_data_body rf with
        | Except.error _ => (none : Option Frame)
        | Except.ok r => r) = some f := h
    cases hb : get_stock_data_body rf with
    | error e => rw [hb] at h2; simp at h2
    | ok r =>
      rw [hb] at h2
      simp only [] at h2
      subst h2
      unfold get_stock_data_body at hb
      split at hb
      · simp at hb
      · cases hc : rawCloses rf with
        | error e => rw [hc] at hb; simp at hb
        | ok closes =>
          rw [hc] at hb
          simp only [Except.ok.injEq, Option.some.injEq] at hb
          subst hb
          refine ⟨?_, ?_, ?_, ?_⟩
          · unfold resolvedFrame
            exact mem_date_resolveClose (mem_date_resolveDate _)
          · unfold rawCloses at hc
            exact closeCells_ok_mem hc
          · intro p hp
            have h2 := (List.mem_filter.mp hp).2
            simp only [Bool.and_eq_true] at h2
            exact h2
          · exact ⟨.ok rfDropAll, { cols := ["Date", "Close"], rows := [] }, rfl, rfl⟩

/-- C3 counterexample: a raw table whose two parseable rows arrive in
descending date order (day 5 before day 3) passes through get_stock_data
unsorted, so the output timestamps are not strictly increasing. -/
theorem C3_counterexample :
    get_stock_data (.ok rfDesc)
      = some { cols := ["Date", "Close"],
               rows := [(some 5, some 10), (some 3, some 11)] } ∧
    ¬ (([(some 5, some 10), (some 3, some 11)] :
        List (Option Nat × Option ℚ)).filterMap Prod.fst).Pairwise (· < ·) :=
  ⟨rfl, by decide⟩

/-- C3 amended: the cleaned output is exactly the fully-parseable
(date, close) cell pairs in raw row order — nonempty when at least one such
pair exists, with no missing value — and its timestamps are strictly
increasing and unique whenever the parseable dates already arrive strictly
increasing; the code itself performs no sorting or deduplication. -/
theorem C3_normalize_invariant (rf : RawFrame) (closes : List (Option ℚ))
    (hc : rawCloses rf = .ok closes)
    (hne : ∃ p ∈ (rawDates rf).zip closes,
      p.1.isSome = true ∧ p.2.isSome = true) :
    ∃ f, get_stock_data (.ok rf) = some f ∧
      f.rows = ((rawDates rf).zip closes).filter
                 (fun p => p.1.isSome && p.2.isSome) ∧
      f.rows ≠ [] ∧
      (∀ p ∈ f.rows, p.1.isSome = true ∧ p.2.isSome = true) ∧
      (((((rawDates rf).zip closes).filter
          (fun p => p.1.isSome && p.2.isSome)).filterMap Prod.fst).Pairwise (· < ·) →
        (f.rows.filterMap Prod.fst).Pairwise (· < ·) ∧
          (f.rows.filterMap Prod.fst).Nodup) := by
  have hrows : rf.rows ≠ [] := by
    intro h0
    rcases hne with ⟨p, hp, _⟩
    rw [rawDates_nil h0] at hp
    simp at hp
  have hbody : get_stock_data_body rf
      = .ok (some { cols := (resolvedFrame rf).cols
                    rows := ((rawDates rf).zip closes).filter
                              (fun p => p.1.isSome && p.2.isSome) }) := by
    unfold get_stock_data_body
    rw [if_neg (by simp [hrows]), hc]
  have hget : get_stock_data (.ok rf)
      = some { cols := (resolvedFrame rf).cols
               rows := ((rawDates rf).zip closes).filter
                         (fun p => p.1.isSome && p.2.isSome) } := by
    show (match get_stock_data_body rf with
      | Except.error _ => (none : Option Frame)
      | Except.ok r => r) = _
    rw [hbody]
  refine ⟨_, hget, rfl, ?_, ?_, ?_⟩
  · rcases hne with ⟨p, hp, hp1, hp2⟩
    exact List.ne_nil_of_mem (List.mem_filter.mpr ⟨hp, by simp [hp1, hp2]⟩)
  · intro p hp
    have h2 := (List.mem_filter.mp hp).2
    simpa [Bool.and_eq_true] using h2
  · intro hmono
    exact ⟨hmono, hmono.imp ne_of_lt⟩

/-- C3 witness: the amended statement evaluated on a date-sorted raw
table. -/
theorem C3_normalize_invariant_witness :
    rawCloses rfSorted = .ok [some 1, some 2] ∧
    (∃ p ∈ (rawDates rfSorted).zip [some 1, some 2],
      p.1.isSome = true ∧ p.2.isSome = true) ∧
    (∃ f, get_stock_data (.ok rfSorted) = some f ∧
      f.rows = ((rawDates rfSorted).zip [some 1, some 2]).filter
                 (fun p => p.1.isSome && p.2.isSome) ∧
      f.rows ≠ [] ∧
      (∀ p ∈ f.rows, p.1.isSome = true ∧ p.2.isSome = true) ∧
      (((((rawDates rfSorted).zip [some 1, some 2]).filter
          (fun p => p.1.isSome && p.2.isSome)).filterMap Prod.fst).Pairwise (· < ·) →
        (f.rows.filterMap Prod.fst).Pairwise (· < ·) ∧
          (f.rows.filterMap Prod.fst).Nodup)) :=
  ⟨rfl, by decide, C3_normalize_invariant rfSorted [some 1, some 2] rfl (by decide)⟩

/-- C4 counterexample: for the series ending on Friday 1970-01-02 (epoch
day 1) and horizon 1, the appended forecast timestamp is epoch day 2 — a
Saturday: the horizon advances one per calendar day, not one per trading
day. -/
theorem C4_counterexample :
    forecast_stock oracle0 dfTwo 1 = some fcTwo ∧
    (fcTwo.map (·.ds)).drop 2 = [2] ∧ isWeekend 2 = true :=
  ⟨rfl, rfl, rfl⟩

/-- C4 amended: when fitting succeeds on a strictly increasing input series
of length N with horizon h at least 1, the forecast has N + h rows, its
first N timestamps are exactly the input timestamps, and its trailing h
timestamps are the h consecutive calendar days (not trading days) after the
last input timestamp — strictly increasing and strictly beyond every input
timestamp. -/
theorem C4_forecast_shape (oracle : Oracle) (df : Frame) (h : Int)
    (fc : Forecast)
    (hmono : ((cleanSeries df).map Prod.fst).Pairwise (· < ·))
    (hh : 1 ≤ h)
    (hfc : forecast_stock oracle df h = some fc) :
    fc.length = (cleanSeries df).length + h.toNat ∧
    (fc.map (·.ds)).take (cleanSeries df).length = (cleanSeries df).map Prod.fst ∧
    (fc.map (·.ds)).drop (cleanSeries df).length
      = (List.range h.toNat).map (fun i => lastDate (cleanSeries df) + (i + 1)) ∧
    ((fc.map (·.ds)).drop (cleanSeries df).length).Pairwise (· < ·) ∧
    (∀ d ∈ (fc.map (·.ds)).drop (cleanSeries df).length,
       ∀ x ∈ (cleanSeries df).map Prod.fst, x < d) := by
  unfold forecast_stock forecast_stock_body at hfc
  by_cases hlen : (cleanSeries df).length < 2
  · rw [if_pos hlen] at hfc
    simp at hfc
  · rw [if_neg hlen, make_future_pos _ h hh] at hfc
    simp only [Option.some.injEq] at hfc
    subst hfc
    have hA : historyDates (cleanSeries df) = (cleanSeries df).map Prod.fst :=
      historyDates_eq hmono
    have hlenA : ((cleanSeries df).map Prod.fst).length = (cleanSeries df).length := by
      simp
    refine ⟨?_, ?_, ?_, ?_, ?_⟩
    · simp [predict, hA]
    · rw [predict_ds, hA, ← hlenA, List.take_left]
    · rw [predict_ds, hA, ← hlenA, List.drop_left]
    · rw [predict_ds, hA, ← hlenA, List.drop_left]
      exact (List.pairwise_lt_range h.toNat).map _ (fun a b hab => by omega)
    · rw [predict_ds, hA, ← hlenA, List.drop_left]
      intro d hd x hx
      rcases List.mem_map.mp hd with ⟨i, _, rfl⟩
      have hx2 : x ≤ (((cleanSeries df)).map Prod.fst).foldl max 0 :=
        mem_le_foldl_max hx 0
      have hx3 : x ≤ lastDate (cleanSeries df) := hx2
      omega

/-- C4 witness: the amended statement evaluated at the two-day series with
horizon 1 under the all-zero oracle. -/
theorem C4_forecast_shape_witness :
    ((cleanSeries dfTwo).map Prod.fst).Pairwise (· < ·) ∧ ((1 : Int) ≤ 1) ∧
    forecast_stock oracle0 dfTwo 1 = some fcTwo ∧
    (fcTwo.length = (cleanSeries dfTwo).length + (1 : Int).toNat ∧
     (fcTwo.map (·.ds)).take (cleanSeries dfTwo).length
       = (cleanSeries dfTwo).map Prod.fst ∧
     (fcTwo.map (·.ds)).drop (cleanSeries dfTwo).length
       = (List.range (1 : Int).toNat).map
           (fun i => lastDate (cleanSeries dfTwo) + (i + 1)) ∧
     ((fcTwo.map (·.ds)).drop (cleanSeries dfTwo).length).Pairwise (· < ·) ∧
     (∀ d ∈ (fcTwo.map (·.ds)).drop (cleanSeries dfTwo).length,
        ∀ x ∈ (cleanSeries dfTwo).map Prod.fst, x < d)) :=
  ⟨by decide, by decide, rfl,
    C4_forecast_shape oracle0 dfTwo 1 fcTwo (by decide) (by decide) rfl⟩

/-- C10 witness: the invariant evaluated on a concrete successful fetch. -/
theorem C10_schema_invariant_witness :
    get_stock_data (.ok rfSorted) = some dfTwo ∧
    ("Date" ∈ dfTwo.cols ∧ "Close" ∈ dfTwo.cols ∧
      (∀ p ∈ dfTwo.rows, p.1.isSome = true ∧ p.2.isSome = true) ∧
      (∃ dl0 f0, get_stock_data dl0 = some f0 ∧ f0.rows = [])) :=
  ⟨rfl, C10_schema_invariant (.ok rfSorted) dfTwo rfl⟩

/-- C5: for either tab value the layout can emit, update_tab returns exactly
one of the three outcomes — the no-data banner, the forecast-failure banner,
or a graph whose figure carries the complete trace set for the active view
(one trace on the historical tab, three on the forecast tab) — and never
nothing. -/
theorem C5_single_outcome (download : String → DownloadResult) (oracle : Oracle)
    (ticker : String) (days : Int) (tab : String)
    (htab : tab ∈ layout_tab_values) :
    ∃ out, update_tab download oracle ticker days tab = some out ∧
      (out = .message noDataMsg ∨ out = .message forecastFailedMsg ∨
        ∃ fig, out = .graph fig ∧
          (tab = "tab1" → fig.traces.length = 1) ∧
          (tab = "tab2" → fig.traces.length = 3)) := by
  have htab2 : tab = "tab1" ∨ tab = "tab2" := by
    simpa [layout_tab_values] using htab
  unfold update_tab update_tab_instr
  cases hdf : get_stock_data (download ticker) with
  | none => exact ⟨.message noDataMsg, rfl, Or.inl rfl⟩
  | some df =>
    by_cases hrows : df.rows.isEmpty
    · exact ⟨.message noDataMsg, by simp [hrows], Or.inl rfl⟩
    · cases hfc : forecast_stock oracle df days with
      | none =>
          exact ⟨.message forecastFailedMsg, by simp [hrows, hfc],
            Or.inr (Or.inl rfl)⟩
      | some fc =>
        by_cases hfce : fc.isEmpty
        · exact ⟨.message forecastFailedMsg, by simp [hrows, hfc, hfce],
            Or.inr (Or.inl rfl)⟩
        · rcases htab2 with rfl | rfl
          · refine ⟨.graph
              { title := optionLabel ticker ++ " - Historical Price"
                traces := [{ name := "Close Price", xs := df.rows.map (·.1),
                             ys := df.rows.map (·.2), fillToPrev := false }] },
              by simp [hrows, hfc, hfce], Or.inr (Or.inr ⟨_, rfl, ?_, ?_⟩)⟩
            · intro _; rfl
            · intro hcon; exact absurd hcon (by decide)
          · refine ⟨.graph
              { title := optionLabel ticker ++ " - " ++ toString days
                           ++ "-Day Forecast (Prophet)"
                traces := [{ name := "Actual", xs := df.rows.map (·.1),
                             ys := df.rows.map (·.2), fillToPrev := false },
                           { name := "Forecast", xs := fc.map (fun r => some r.ds),
                             ys := fc.map (fun r => some r.yhat), fillToPrev := false },
                           { name := "Confidence Interval",
                             xs := fc.map (fun r => some r.ds),
                             ys := fc.map (fun r => some r.yhat_upper),
                             fillToPrev := true }] },
              by simp [hrows, hfc, hfce], Or.inr (Or.inr ⟨_, rfl, ?_, ?_⟩)⟩
            · intro hcon; exact absurd hcon (by decide)
            · intro _; rfl

/-- C5 witness: a concrete trigger on the historical tab. -/
theorem C5_single_outcome_witness :
    ("tab1" ∈ layout_tab_values) ∧
    (∃ out, update_tab downloadSorted oracle0 "AAPL" 30 "tab1" = some out ∧
      (out = .message noDataMsg ∨ out = .message forecastFailedMsg ∨
        ∃ fig, out = .graph fig ∧
          (("tab1" : String) = "tab1" → fig.traces.length = 1) ∧
          (("tab1" : String) = "tab2" → fig.traces.length = 3))) :=
  ⟨by decide, C5_single_outcome downloadSorted oracle0 "AAPL" 30 "tab1" (by decide)⟩

/-- C7: on a trigger where fetch and forecast both succeed with nonempty
results, the historical tab yields exactly one trace covering the full
fetched history, and the forecast tab yields exactly three traces — the
actual prices over the historical domain, the point estimate over the full
domain, and the upper-bound trace carrying the tonexty fill that shades the
band between the point estimate and the upper bound only. -/
theorem C7_view_traces (download : String → DownloadResult) (oracle : Oracle)
    (ticker : String) (days : Int) (df : Frame) (fc : Forecast)
    (hdf : get_stock_data (download ticker) = some df) (hne : df.rows ≠ [])
    (hfc : forecast_stock oracle df days = some fc) (hfne : fc ≠ []) :
    update_tab download oracle ticker days "tab1"
      = some (.graph
          { title := optionLabel ticker ++ " - Historical Price"
            traces := [{ name := "Close Price", xs := df.rows.map (·.1),
                         ys := df.rows.map (·.2), fillToPrev := false }] }) ∧
    update_tab download oracle ticker days "tab2"
      = some (.graph
          { title := optionLabel ticker ++ " - " ++ toString days
                       ++ "-Day Forecast (Prophet)"
            traces := [{ name := "Actual", xs := df.rows.map (·.1),
                         ys := df.rows.map (·.2), fillToPrev := false },
                       { name := "Forecast", xs := fc.map (fun r => some r.ds),
                         ys := fc.map (fun r => some r.yhat), fillToPrev := false },
                       { name := "Confidence Interval",
                         xs := fc.map (fun r => some r.ds),
                         ys := fc.map (fun r => some r.yhat_upper),
                         fillToPrev := true }] }) := by
  have hrows : df.rows.isEmpty = false := by simp [hne]
  have hfce : fc.isEmpty = false := by simp [hfne]
  constructor <;> simp [update_tab, update_tab_instr, hdf, hrows, hfc, hfce]

/-- C7 witness: both views evaluated on a concrete successful pipeline. -/
theorem C7_view_traces_witness :
    get_stock_data (downloadSorted "AAPL") = some dfTwo ∧ dfTwo.rows ≠ [] ∧
    forecast_stock oracle0 dfTwo 1 = some fcTwo ∧ fcTwo ≠ [] ∧
    (update_tab downloadSorted oracle0 "AAPL" 1 "tab1"
      = some (.graph
          { title := optionLabel "AAPL" ++ " - Historical Price"
            traces := [{ name := "Close Price", xs := dfTwo.rows.map (·.1),
                         ys := dfTwo.rows.map (·.2), fillToPrev := false }] }) ∧
    update_tab downloadSorted oracle0 "AAPL" 1 "tab2"
      = some (.graph
          { title := optionLabel "AAPL" ++ " - " ++ toString (1 : Int)
                       ++ "-Day Forecast (Prophet)"
            traces := [{ name := "Actual", xs := dfTwo.rows.map (·.1),
                         ys := dfTwo.rows.map (·.2), fillToPrev := false },
                       { name := "Forecast", xs := fcTwo.map (fun r => some r.ds),
                         ys := fcTwo.map (fun r => some r.yhat), fillToPrev := false },
                       { name := "Confidence Interval",
                         xs := fcTwo.map (fun r => some r.ds),
                         ys := fcTwo.map (fun r => some r.yhat_upper),
                         fillToPrev := true }] })) :=
  ⟨rfl, by decide, rfl, by decide,
    C7_view_traces downloadSorted oracle0 "AAPL" 1 dfTwo fcTwo rfl (by decide)
      rfl (by decide)⟩

/-- The two stage-invocation flags of update_tab_instr depend only on the
fetched data, never on the active tab: the fetch always runs, and the
forecast runs exactly when the fetch produced a nonempty frame. -/
theorem update_tab_instr_flags (download : String → DownloadResult)
    (oracle : Oracle) (ticker : String) (days : Int) (tab : String) :
    (update_tab_instr download oracle ticker days tab).2
      = (true, (get_stock_data (download ticker)).elim false
                 (fun df => !df.rows.isEmpty)) := by
  unfold update_tab_instr
  cases get_stock_data (download ticker) with
  | none => rfl
  | some df =>
    by_cases hrows : df.rows.isEmpty
    · simp [hrows]
    · cases hfc : forecast_stock oracle df days with
      | none => simp [hrows, hfc]
      | some fc =>
        by_cases hfce : fc.isEmpty
        · simp [hrows, hfc, hfce]
        · by_cases h1 : tab = "tab1" <;> by_cases h2 : tab = "tab2" <;>
            simp [hrows, hfc, hfce, h1, h2]

/-- C8: on every trigger the fetch stage is invoked, the forecast stage is
invoked exactly when the fetch produced usable (nonempty) data, and the
invocation flags are identical across tab values — no stage is skipped
because only the active view changed. -/
theorem C8_stages_not_skipped (download : String → DownloadResult)
    (oracle : Oracle) (ticker : String) (days : Int) (tab : String) :
    (update_tab_instr download oracle ticker days tab).2.1 = true ∧
    ((update_tab_instr download oracle ticker days tab).2.2 = true ↔
      ∃ df, get_stock_data (download ticker) = some df ∧ df.rows ≠ []) ∧
    (∀ tb, (update_tab_instr download oracle ticker days tb).2
      = (update_tab_instr download oracle ticker days tab).2) := by
  refine ⟨?_, ?_, ?_⟩
  · rw [update_tab_instr_flags]
  · rw [update_tab_instr_flags]
    cases hdf : get_stock_data (download ticker) with
    | none => simp
    | some df => simp
  · intro tb
    rw [update_tab_instr_flags, update_tab_instr_flags]

end StockForecast
